import Mathlib

/-!
# Verification of the ERC-8004 example agents (server/validator work-exchange core)

Shallow embedding of the core of `agents/server_agent.py` and
`agents/validator_agent.py`:

* text is embedded as `List Nat` (the list of Unicode code points of a
  Python `str`; all behaviour relevant to the claims is on ASCII code
  points);
* `_extract_validation_score` (validator, lines 316-352) is embedded with a
  faithful model of the four `re.findall` pattern classes and the sentiment
  keyword ladder;
* `_create_fallback_validation` / `_create_fallback_analysis` are embedded
  as the report-building functions they are, with Python's fallible
  operations (dict indexing, division) made explicit in `Except`-valued
  variants;
* `json.dumps(..., sort_keys=True)`, `json.dump(..., indent=2)` and
  SHA-256 (FIPS 180-4) are implemented over `List Nat` so that
  `submit_work_for_validation` (server, lines 174-200) can be embedded
  byte-for-byte;
* the on-disk `data/…` store is modelled as a function
  `List Nat → Option (List Nat)` from path to file bytes.
-/

namespace ERC8004

/-- Code points of a string literal: the embedding of a Python `str`. -/
def codes (s : String) : List Nat := s.data.map Char.toNat

/-- ASCII lowercasing of one code point; models `str.lower()` on the
code points the source ever compares (the source only matches ASCII
pattern text and keywords). -/
def lowerNat (n : Nat) : Nat := if 65 ≤ n ∧ n ≤ 90 then n + 32 else n

/-- Model of `str.lower()`. -/
def pyLower (t : List Nat) : List Nat := t.map lowerNat

/-- ASCII uppercasing of one code point (used by `str.title()`). -/
def upperNat (n : Nat) : Nat := if 97 ≤ n ∧ n ≤ 122 then n - 32 else n

/-- Decimal digit code points, the model of the regex class `\d`. -/
def isDigitCode (n : Nat) : Bool := decide (48 ≤ n ∧ n ≤ 57)

/-- Code points matched by the regex class `[:\s]` (colon or whitespace;
ASCII whitespace `\t \n \x0b \x0c \r` and space). -/
def isSepCode (n : Nat) : Bool := decide (n = 58 ∨ n = 32 ∨ (9 ≤ n ∧ n ≤ 13))

/-- Value of a list of decimal digit code points, models `int(...)` on the
captured group. -/
def natOfDigits (ds : List Nat) : Nat := ds.foldl (fun a d => 10 * a + (d - 48)) 0

/-- Boolean prefix test on code-point lists. -/
def isPrefixL : List Nat → List Nat → Bool
  | [], _ => true
  | _ :: _, [] => false
  | a :: as, b :: bs => decide (a = b) && isPrefixL as bs

/-- Boolean substring test on code-point lists; models Python's `in` on
`str`. -/
def containsL (pat : List Nat) : List Nat → Bool
  | [] => isPrefixL pat []
  | c :: cs => isPrefixL pat (c :: cs) || containsL pat cs

/-- One attempted match, at the start of the input, of the regex
`kw[:\s]+(\d+)` (the `score`/`overall` pattern classes).  As the three
character classes involved are pairwise disjoint, the greedy backtracking
match succeeds exactly when the literal keyword is followed by a non-empty
run of separators and then a non-empty run of digits; the captured group is
the maximal digit run and the match ends after it. -/
def matchKwNum (kw : List Nat) (t : List Nat) : Option (Nat × List Nat) :=
  if isPrefixL kw t then
    let rest := t.drop kw.length
    let seps := rest.takeWhile isSepCode
    let rest2 := rest.dropWhile isSepCode
    if seps.isEmpty then none
    else
      let ds := rest2.takeWhile isDigitCode
      if ds.isEmpty then none
      else some (natOfDigits ds, rest2.drop ds.length)
  else none

/-- One attempted match, at the start of the input, of the regex
`(\d+)suffix` (the `N/100` and `N%` pattern classes): a non-empty maximal
digit run followed by the literal suffix. -/
def matchNumSuffix (suffix : List Nat) (t : List Nat) : Option (Nat × List Nat) :=
  let ds := t.takeWhile isDigitCode
  if ds.isEmpty then none
  else
    let rest := t.drop ds.length
    if isPrefixL suffix rest then some (natOfDigits ds, rest.drop suffix.length)
    else none

/-- `re.findall` scanning: try the matcher at each position, and after a
(non-empty) match continue scanning after it, collecting the captured
groups left to right.  The fuel argument is instantiated with the text
length; every successful match of the matchers above consumes at least one
code point, so this fuel is always sufficient. -/
def scanAll (m : List Nat → Option (Nat × List Nat)) : Nat → List Nat → List Nat
  | 0, _ => []
  | _ + 1, [] => []
  | fuel + 1, c :: cs =>
    match m (c :: cs) with
    | some (v, rest) => v :: scanAll m fuel rest
    | none => scanAll m fuel cs

/-- `re.findall(r'score[:\s]+(\d+)', low)`. -/
def scanScore (low : List Nat) : List Nat := scanAll (matchKwNum (codes "score")) low.length low

/-- `re.findall(r'(\d+)/100', low)`. -/
def scanSlash100 (low : List Nat) : List Nat :=
  scanAll (matchNumSuffix (codes "/100")) low.length low

/-- `re.findall(r'(\d+)%', low)`. -/
def scanPercent (low : List Nat) : List Nat := scanAll (matchNumSuffix (codes "%")) low.length low

/-- `re.findall(r'overall[:\s]+(\d+)', low)`. -/
def scanOverall (low : List Nat) : List Nat :=
  scanAll (matchKwNum (codes "overall")) low.length low

/-- `min(100, max(0, score))` of the source (line 335). -/
def clampScore (n : Nat) : Nat := min 100 (max 0 n)

/-- The sentiment keyword ladder of `_extract_validation_score`
(lines 338-349), evaluated on the lowercased text. -/
def sentimentLadder (low : List Nat) : Nat :=
  if containsL (codes "excellent") low || containsL (codes "outstanding") low then 95
  else if containsL (codes "good") low || containsL (codes "solid") low then 85
  else if containsL (codes "adequate") low || containsL (codes "acceptable") low then 75
  else if containsL (codes "poor") low || containsL (codes "inadequate") low then 45
  else 70

/-- Body of `_extract_validation_score` after the initial lowercasing: the
four pattern classes are tried in order, the first class with any match
returns the clamped value of its last match (`matches[-1]`), otherwise the
sentiment ladder decides. -/
def extractCore (low : List Nat) : Nat :=
  match (scanScore low).getLast? with
  | some v => clampScore v
  | none =>
    match (scanSlash100 low).getLast? with
    | some v => clampScore v
    | none =>
      match (scanPercent low).getLast? with
      | some v => clampScore v
      | none =>
        match (scanOverall low).getLast? with
        | some v => clampScore v
        | none => sentimentLadder low

/-- `ValidatorAgent._extract_validation_score` (validator_agent.py,
lines 316-352).  Every pattern is matched against `validation_result.lower()`,
and the `try/except` wrapper never fires because every step is total. -/
def extractScore (t : List Nat) : Nat := extractCore (pyLower t)

/-- No sentiment keyword of the ladder occurs in the lowercased text. -/
def NoSentimentKeyword (low : List Nat) : Prop :=
  containsL (codes "excellent") low = false ∧ containsL (codes "outstanding") low = false ∧
  containsL (codes "good") low = false ∧ containsL (codes "solid") low = false ∧
  containsL (codes "adequate") low = false ∧ containsL (codes "acceptable") low = false ∧
  containsL (codes "poor") low = false ∧ containsL (codes "inadequate") low = false

/-- No numeric pattern class of the extractor matches the lowercased text. -/
def NoNumericMatch (low : List Nat) : Prop :=
  scanScore low = [] ∧ scanSlash100 low = [] ∧ scanPercent low = [] ∧ scanOverall low = []

instance (low : List Nat) : Decidable (NoNumericMatch low) := by
  unfold NoNumericMatch
  infer_instance

instance (low : List Nat) : Decidable (NoSentimentKeyword low) := by
  unfold NoSentimentKeyword
  infer_instance

/-- Decimal digit code points of a natural number (the body of `str(n)` /
`"{n}"` interpolation for a non-negative Python int). -/
def natRepr (n : Nat) : List Nat :=
  if _h : n < 10 then [48 + n] else natRepr (n / 10) ++ [48 + n % 10]
termination_by n
decreasing_by exact Nat.div_lt_self (by omega) (by omega)

/-- `str(n)` for a Python int. -/
def intRepr (n : Int) : List Nat :=
  if n < 0 then 45 :: natRepr (-n).toNat else natRepr n.toNat

/-- A Python value as the agents use them: strings, ints and dicts.  A dict
is embedded as its association list in insertion order (Python dicts are
ordered and have unique keys). -/
inductive PyVal where
  | str (s : List Nat)
  | int (n : Int)
  | dict (kvs : List (List Nat × PyVal))

/-- A Python dict of string keys, in insertion order. -/
abbrev PDict := List (List Nat × PyVal)

mutual

/-- `str(v)` for a Python value.  On strings it is the identity (the only
case the agents exercise); ints and dicts render as their `repr`. -/
def pyStr : PyVal → List Nat
  | .str s => s
  | .int n => intRepr n
  | .dict kvs => codes "\x7b" ++ pyDictItems kvs ++ codes "\x7d"

/-- Comma-separated `'key': repr(value)` items of a dict repr. -/
def pyDictItems : List (List Nat × PyVal) → List Nat
  | [] => []
  | [(k, v)] => codes "'" ++ k ++ codes "': " ++ pyReprV v
  | (k, v) :: kv2 :: rest =>
    codes "'" ++ k ++ codes "': " ++ pyReprV v ++ codes ", " ++ pyDictItems (kv2 :: rest)

/-- `repr(v)` for a Python value (naive: strings are single-quoted without
escaping, which is exact for every string the agents build). -/
def pyReprV : PyVal → List Nat
  | .str s => codes "'" ++ s ++ codes "'"
  | .int n => intRepr n
  | .dict kvs => codes "\x7b" ++ pyDictItems kvs ++ codes "\x7d"

end

/-- `key in data` on a Python dict. -/
def hasKey (d : PDict) (k : List Nat) : Bool := d.any fun kv => decide (kv.1 = k)

/-- `data.get(key, default)` on a Python dict. -/
def pyGet (d : PDict) (k : List Nat) (dflt : PyVal) : PyVal :=
  match d.find? (fun kv => decide (kv.1 = k)) with
  | some kv => kv.2
  | none => dflt

/-- `', '.join`-style joining of string pieces. -/
def joinSep (sep : List Nat) : List (List Nat) → List Nat
  | [] => []
  | [x] => x
  | x :: y :: rest => x ++ sep ++ joinSep sep (y :: rest)

/-- `str(l)` for a Python list of strings, e.g. `['timestamp']`. -/
def pyStrListRepr (l : List (List Nat)) : List Nat :=
  codes "[" ++ joinSep (codes ", ") (l.map fun s => codes "'" ++ s ++ codes "'") ++ codes "]"

/-- `required_fields` of `_create_fallback_validation` (line 281). -/
def requiredFields : List (List Nat) :=
  [codes "symbol", codes "analysis", codes "timestamp", codes "agent_id"]

/-- `key_components` of `_create_fallback_validation` (line 288). -/
def keyComponents : List (List Nat) :=
  [codes "trend", codes "support", codes "resistance", codes "recommendation", codes "risk"]

/-- `missing_fields` (line 282): required fields absent from the package. -/
def fvMissing (d : PDict) : List (List Nat) := requiredFields.filter fun f => !hasKey d f

/-- `completeness_score` (line 284): `100 if not missing_fields else
max(0, 100 - len(missing_fields) * 25)`. -/
def fvCompleteness (d : PDict) : Int :=
  if (fvMissing d).isEmpty then 100 else max 0 (100 - 25 * (fvMissing d).length)

/-- `analysis_text` (line 287): `str(package.get("analysis", "")).lower()`. -/
def fvAnalysisText (d : PDict) : List Nat := pyLower (pyStr (pyGet d (codes "analysis") (.str [])))

/-- `found_components` (line 289): the recognized keywords occurring in the
lowercased result payload. -/
def fvFound (d : PDict) : List (List Nat) :=
  keyComponents.filter fun comp => containsL comp (fvAnalysisText d)

/-- `methodology_score` (line 290): `(len(found)/len(key_components))*100`.
The Python value is a float, but for every possible count `0..5` the double
rounding of `count/5*100` is exactly the integer `20*count`, so the score is
embedded as that integer. -/
def fvMethodology (d : PDict) : Int := 20 * (fvFound d).length

/-- `overall_score` (line 293): `int((completeness + methodology) / 2)` —
float truncation, which on these non-negative exact halves is floor. -/
def fvOverall (d : PDict) : Int := (fvCompleteness d + fvMethodology d) / 2

/-- The part of the fallback-validation report (lines 295-307) before the
literal `Overall Validation Score: `. -/
def fvReportHead (d : PDict) : List Nat :=
  codes "\n# Validation Report\n\n## Analysis Quality Assessment\n\n### Completeness Score: "
  ++ intRepr (fvCompleteness d)
  ++ codes "/100\n- Required fields present: "
  ++ natRepr (4 - (fvMissing d).length)
  ++ codes "/4\n- Missing fields: "
  ++ (if (fvMissing d).isEmpty then codes "None" else pyStrListRepr (fvMissing d))
  ++ codes "\n\n### Methodology Score: "
  ++ intRepr (fvMethodology d)
  ++ codes "/100\n- Key components found: "
  ++ natRepr (fvFound d).length
  ++ codes "/5\n- Components: "
  ++ joinSep (codes ", ") (fvFound d)
  ++ codes "\n\n### "

/-- The part of the fallback-validation report (lines 308-314) after the
interpolated overall score. -/
def fvReportTail (d : PDict) : List Nat :=
  codes "/100\n\n## Summary\nThe analysis demonstrates "
  ++ (if 80 ≤ fvOverall d then codes "good"
      else if 60 ≤ fvOverall d then codes "adequate" else codes "basic")
  ++ codes " quality with "
  ++ (if 4 ≤ (fvFound d).length then codes "comprehensive" else codes "partial")
  ++ codes " coverage of required analytical components.\n\n*Note: This validation was performed using fallback logic. For AI-powered validation with CrewAI, please configure your OpenAI API key.*\n"

/-- `ValidatorAgent._create_fallback_validation` (validator_agent.py,
lines 278-314): the deterministic fallback validation report. -/
def fvReport (d : PDict) : List Nat :=
  fvReportHead d ++ codes "Overall Validation Score: " ++ intRepr (fvOverall d) ++ fvReportTail d

/-- `_create_fallback_validation` with its only fallible operation —
the division by `len(key_components)` — made explicit.  Dict access in the
function body uses only the total operations `in` and `.get(, default)`. -/
def fallbackValidationE (d : PDict) : Except (List Nat) (List Nat) :=
  if keyComponents.length = 0 then .error (codes "ZeroDivisionError") else .ok (fvReport d)

/-- Digits of `n` reversed and grouped in threes by commas, the reversed
core of Python's `{n:,}` format. -/
def group3Rev : Nat → List Nat → List Nat
  | _, [] => []
  | 0, l => l
  | f + 1, l => if l.length ≤ 3 then l else l.take 3 ++ [44] ++ group3Rev f (l.drop 3)

/-- `"{n:,}"` for a non-negative int: decimal digits with thousands
separators. -/
def natComma (n : Nat) : List Nat := (group3Rev (natRepr n).length (natRepr n).reverse).reverse

/-- `"{n:,}"` for a Python int. -/
def intComma (n : Int) : List Nat :=
  if n < 0 then 45 :: natComma (-n).toNat else natComma n.toNat

/-- ASCII letter code points (for `str.title()`). -/
def isAlphaCode (n : Nat) : Bool := decide ((65 ≤ n ∧ n ≤ 90) ∨ (97 ≤ n ∧ n ≤ 122))

/-- Worker for `str.title()`: uppercase a letter after a non-letter,
lowercase a letter after a letter. -/
def titleGo : Bool → List Nat → List Nat
  | _, [] => []
  | prev, c :: cs =>
    (if isAlphaCode c then (if prev then lowerNat c else upperNat c) else c)
      :: titleGo (isAlphaCode c) cs

/-- `str.title()`. -/
def pyTitle (s : List Nat) : List Nat := titleGo false s

/-- The `analysis` dict literal of `_create_fallback_analysis`
(server_agent.py, lines 204-214).  `pyhash` stands for Python's built-in
`hash` on strings (unspecified, deterministic per process); `%` on `Int` is
`emod`, matching Python's `%`. -/
def fbaDict (symbol timeframe : List Nat) (pyhash : List Nat → Int) : PDict :=
  [(codes "symbol", .str symbol),
   (codes "timeframe", .str timeframe),
   (codes "trend", .str (if pyhash symbol % 2 = 0 then codes "bullish" else codes "bearish")),
   (codes "confidence", .int 75),
   (codes "support_level", .int (if symbol = codes "BTC" then 45000 else 2800)),
   (codes "resistance_level", .int (if symbol = codes "BTC" then 52000 else 3200)),
   (codes "recommendation", .str (if pyhash symbol % 2 = 0 then codes "BUY" else codes "HOLD")),
   (codes "risk_level", .str (codes "medium")),
   (codes "analysis_note", .str (codes "This is a fallback analysis generated without LLM. For full AI-powered analysis, please configure OPENAI_API_KEY."))]

/-- `analysis[key]` — Python dict indexing, raising `KeyError` when the key
is absent. -/
def pyIndexE (d : PDict) (k : List Nat) : Except (List Nat) PyVal :=
  match d.find? (fun kv => decide (kv.1 = k)) with
  | some kv => .ok kv.2
  | none => .error (codes "KeyError")

/-- `"{v:,}"` — the thousands-separator format, raising `ValueError` on a
non-int value. -/
def formatCommaE : PyVal → Except (List Nat) (List Nat)
  | .int n => .ok (intComma n)
  | _ => .error (codes "ValueError")

/-- `ServerAgent._create_fallback_analysis` (server_agent.py,
lines 202-235) with Python's fallible operations (dict indexing and the
`:,` format) made explicit in the `Except` monad. -/
def fallbackAnalysisE (symbol timeframe : List Nat) (pyhash : List Nat → Int) :
    Except (List Nat) (List Nat) := do
  let analysis := fbaDict symbol timeframe pyhash
  let trend ← pyIndexE analysis (codes "trend")
  let risk ← pyIndexE analysis (codes "risk_level")
  let support ← pyIndexE analysis (codes "support_level")
  let resistance ← pyIndexE analysis (codes "resistance_level")
  let confidence ← pyIndexE analysis (codes "confidence")
  let recommendation ← pyIndexE analysis (codes "recommendation")
  let note ← pyIndexE analysis (codes "analysis_note")
  let supportC ← formatCommaE support
  let resistanceC ← formatCommaE resistance
  pure (codes "\n# Market Analysis Report for " ++ symbol
    ++ codes "\n\n## Executive Summary\nBased on technical analysis of " ++ symbol
    ++ codes " over the " ++ timeframe
    ++ codes " timeframe, the market shows a **" ++ pyStr trend
    ++ codes "** trend with **" ++ pyStr risk
    ++ codes "** risk levels.\n\n## Key Findings\n- **Current Trend**: " ++ pyTitle (pyStr trend)
    ++ codes "\n- **Support Level**: $" ++ supportC
    ++ codes "\n- **Resistance Level**: $" ++ resistanceC
    ++ codes "\n- **Confidence Level**: " ++ pyStr confidence
    ++ codes "%\n\n## Recommendation\n**" ++ pyStr recommendation
    ++ codes "** - " ++ pyStr note
    ++ codes "\n\n## Risk Assessment\nThe current market conditions present " ++ pyStr risk
    ++ codes " risk levels. Traders should exercise appropriate caution and position sizing.\n\n*Note: This analysis was generated using fallback logic. For AI-powered analysis with CrewAI, please configure your OpenAI API key.*\n")

/-- The report text `_create_fallback_analysis` returns (the unique `.ok`
value of `fallbackAnalysisE`). -/
def fallbackAnalysisReport (symbol timeframe : List Nat) (pyhash : List Nat → Int) : List Nat :=
  codes "\n# Market Analysis Report for " ++ symbol
  ++ codes "\n\n## Executive Summary\nBased on technical analysis of " ++ symbol
  ++ codes " over the " ++ timeframe
  ++ codes " timeframe, the market shows a **"
  ++ (if pyhash symbol % 2 = 0 then codes "bullish" else codes "bearish")
  ++ codes "** trend with **" ++ codes "medium"
  ++ codes "** risk levels.\n\n## Key Findings\n- **Current Trend**: "
  ++ pyTitle (if pyhash symbol % 2 = 0 then codes "bullish" else codes "bearish")
  ++ codes "\n- **Support Level**: $"
  ++ intComma (if symbol = codes "BTC" then 45000 else 2800)
  ++ codes "\n- **Resistance Level**: $"
  ++ intComma (if symbol = codes "BTC" then 52000 else 3200)
  ++ codes "\n- **Confidence Level**: " ++ intRepr 75
  ++ codes "%\n\n## Recommendation\n**"
  ++ (if pyhash symbol % 2 = 0 then codes "BUY" else codes "HOLD")
  ++ codes "** - "
  ++ codes "This is a fallback analysis generated without LLM. For full AI-powered analysis, please configure OPENAI_API_KEY."
  ++ codes "\n\n## Risk Assessment\nThe current market conditions present " ++ codes "medium"
  ++ codes " risk levels. Traders should exercise appropriate caution and position sizing.\n\n*Note: This analysis was generated using fallback logic. For AI-powered analysis with CrewAI, please configure your OpenAI API key.*\n"

/-- The producer's analysis package (the dict built by
`perform_market_analysis`, server_agent.py lines 157-169). -/
structure WorkPackage where
  symbol : List Nat
  timeframe : List Nat
  timestamp : Int
  agent_id : Int
  agent_domain : List Nat
  analysis : List Nat
  metadata : PDict

/-- `ServerAgent.perform_market_analysis` (server_agent.py, lines 94-172):
the analysis engine (CrewAI, external) either returns text or fails; on any
failure the fallback analysis is substituted, and the package is assembled
identically in both cases. -/
def perform_market_analysis (symbol timeframe : List Nat)
    (engine : Except (List Nat) (List Nat)) (pyhash : List Nat → Int)
    (ts agent_id : Int) (agent_domain : List Nat) : WorkPackage :=
  let result := match engine with
    | .ok r => r
    | .error _ => fallbackAnalysisReport symbol timeframe pyhash
  { symbol := symbol, timeframe := timeframe, timestamp := ts, agent_id := agent_id,
    agent_domain := agent_domain, analysis := result,
    metadata := [(codes "crew_agents", .int 2), (codes "tasks_completed", .int 2),
                 (codes "analysis_method", .str (codes "CrewAI Multi-Agent Analysis"))] }

/-- The validator-side view of the content-addressed store: path to parsed
package (the composition of the file system with `json.load`). -/
abbrev VStore := List Nat → Option PDict

/-- `ValidatorAgent._load_analysis_package` (validator_agent.py,
lines 260-267): read `data/{hash}.json`, `None` on `FileNotFoundError`. -/
def load_analysis_package (st : VStore) (dataHash : List Nat) : Option PDict :=
  st (codes "data/" ++ dataHash ++ codes ".json")

/-- The validation package dict built by `validate_analysis`
(lines 217-230). -/
structure ValidationPackage where
  data_hash : List Nat
  validator_agent_id : Int
  validator_domain : List Nat
  timestamp : Int
  validation_score : Nat
  validation_report : List Nat
  original_analysis : PDict
  metadata_validation_method : List Nat
  metadata_validator_agents : Nat
  metadata_validation_tasks : Nat

/-- Result of `validate_analysis`: either the not-found error dict
(lines 155-159) or the completed validation package. -/
inductive VResult where
  | notFound (error : List Nat) (score : Int) (validation_complete : Bool)
  | completed (vp : ValidationPackage)

/-- `ValidatorAgent.validate_analysis` (validator_agent.py, lines 140-233).
The guard `if not analysis_package:` (line 154) is a Python falsiness
check: both a missing file (`None`) and a loaded empty dict (`{}`) take
the not-found path.  The primary validation engine (CrewAI
`crew.kickoff()`, external) is passed as an `Except`: on any engine
failure the fallback validation report is substituted (lines 206-211) and
the exchange continues identically. -/
def validate_analysis (st : VStore) (dataHash : List Nat)
    (engine : Except (List Nat) (List Nat)) (agent_id : Int) (agent_domain : List Nat)
    (ts : Int) : VResult :=
  match load_analysis_package st dataHash with
  | none => .notFound (codes "Analysis package not found") 0 false
  | some pkg =>
    if pkg.isEmpty then .notFound (codes "Analysis package not found") 0 false
    else
    let result := match engine with
      | .ok r => r
      | .error _ => fvReport pkg
    .completed {
      data_hash := dataHash
      validator_agent_id := agent_id
      validator_domain := agent_domain
      timestamp := ts
      validation_score := extractScore result
      validation_report := result
      original_analysis := pkg
      metadata_validation_method := codes "CrewAI Multi-Agent Validation"
      metadata_validator_agents := 2
      metadata_validation_tasks := 2 }

/-- The metadata of a validation result (`None` for the not-found dict):
validation method tag, validator agent count, task count. -/
def vresultMetadata : VResult → Option (List Nat × Nat × Nat)
  | .notFound _ _ _ => none
  | .completed vp =>
    some (vp.metadata_validation_method,
      vp.metadata_validator_agents, vp.metadata_validation_tasks)

/-- One lowercase hex digit (`0-9a-f`) code point of a nibble. -/
def hexDig (n : Nat) : Nat := if n < 10 then 48 + n else 87 + n

/-- Lowercase hex rendering of a byte string, models `bytes.hex()`. -/
def toHexL : List Nat → List Nat
  | [] => []
  | b :: bs => hexDig (b / 16) :: hexDig (b % 16) :: toHexL bs

/-- Four lowercase hex digits, the `XXXX` of a JSON `\uXXXX` escape. -/
def hex4 (n : Nat) : List Nat :=
  [hexDig (n / 4096 % 16), hexDig (n / 256 % 16), hexDig (n / 16 % 16), hexDig (n % 16)]

/-- `json.dumps` escaping of one character (default `ensure_ascii=True`):
quote and backslash escaped, the short control escapes, `\uXXXX` for other
control and all non-ASCII characters, surrogate pairs beyond the BMP. -/
def escChar (c : Nat) : List Nat :=
  if c = 34 then [92, 34]
  else if c = 92 then [92, 92]
  else if c = 8 then [92, 98]
  else if c = 9 then [92, 116]
  else if c = 10 then [92, 110]
  else if c = 12 then [92, 102]
  else if c = 13 then [92, 114]
  else if c < 32 then 92 :: 117 :: hex4 c
  else if c < 127 then [c]
  else if c < 65536 then 92 :: 117 :: hex4 c
  else 92 :: 117 :: hex4 (55296 + (c - 65536) / 1024) ++ (92 :: 117 :: hex4 (56320 + (c - 65536) % 1024))

/-- JSON escaping of a whole string body. -/
def escStr : List Nat → List Nat
  | [] => []
  | c :: cs => escChar c ++ escStr cs

/-- A JSON string literal: `"` ++ escaped body ++ `"`. -/
def jsonQuote (s : List Nat) : List Nat := 34 :: escStr s ++ [34]

/-- Python string comparison (`sorted` key order): lexicographic on code
points. -/
def lexLe : List Nat → List Nat → Bool
  | [], _ => true
  | _ :: _, [] => false
  | a :: as, b :: bs => if a < b then true else if b < a then false else lexLe as bs

/-- Insert one key/value pair into a key-sorted list (stable). -/
def insertKV (p : List Nat × PyVal) : List (List Nat × PyVal) → List (List Nat × PyVal)
  | [] => [p]
  | q :: qs => if lexLe p.1 q.1 then p :: q :: qs else q :: insertKV p qs

/-- Stable sort of dict items by key — `sorted(d.items())` as used by
`json.dumps(..., sort_keys=True)`. -/
def sortPairs : List (List Nat × PyVal) → List (List Nat × PyVal)
  | [] => []
  | p :: ps => insertKV p (sortPairs ps)

mutual

/-- Recursively sort every dict of a value by key: the key order
`json.dumps(..., sort_keys=True)` serializes in. -/
def sortPV : PyVal → PyVal
  | .str s => .str s
  | .int n => .int n
  | .dict kvs => .dict (sortPairs (sortKVs kvs))

/-- `sortPV` applied to every value of a dict item list. -/
def sortKVs : List (List Nat × PyVal) → List (List Nat × PyVal)
  | [] => []
  | (k, v) :: rest => (k, sortPV v) :: sortKVs rest

end

mutual

/-- `json.dumps(v)` with the default separators `", "` and `": "`, in the
order the item list is given (sorting is applied beforehand by `sortPV`
for the `sort_keys=True` call). -/
def dumpsRaw : PyVal → List Nat
  | .str s => jsonQuote s
  | .int n => intRepr n
  | .dict kvs => 123 :: dumpsItems kvs ++ [125]

/-- The `"key": value` items of a JSON object, joined by `", "`. -/
def dumpsItems : List (List Nat × PyVal) → List Nat
  | [] => []
  | [(k, v)] => jsonQuote k ++ codes ": " ++ dumpsRaw v
  | (k, v) :: q :: rest =>
    jsonQuote k ++ codes ": " ++ dumpsRaw v ++ codes ", " ++ dumpsItems (q :: rest)

end

/-- Indentation spaces. -/
def indSpaces (n : Nat) : List Nat := List.replicate n 32

mutual

/-- `json.dump(v, f, indent=2)` (separators `","`/`": "`, newline and
two-space indentation per level, items in insertion order). -/
def dumpsInd : Nat → PyVal → List Nat
  | _, .str s => jsonQuote s
  | _, .int n => intRepr n
  | _, .dict [] => [123, 125]
  | lvl, .dict (kv :: kvs) =>
    123 :: 10 :: indItems (lvl + 2) (kv :: kvs) ++ 10 :: indSpaces lvl ++ [125]

/-- The indented `"key": value` items of a JSON object, joined by
`",\n"`. -/
def indItems : Nat → List (List Nat × PyVal) → List Nat
  | _, [] => []
  | lvl, [(k, v)] => indSpaces lvl ++ jsonQuote k ++ codes ": " ++ dumpsInd lvl v
  | lvl, (k, v) :: q :: rest =>
    indSpaces lvl ++ jsonQuote k ++ codes ": " ++ dumpsInd lvl v ++ 44 :: 10 :: indItems lvl (q :: rest)

end

/-- The SHA-256 round constants. -/
def shaK : List Nat :=
  [1116352408, 1899447441, 3049323471, 3921009573,
   961987163, 1508970993, 2453635748, 2870763221,
   3624381080, 310598401, 607225278, 1426881987,
   1925078388, 2162078206, 2614888103, 3248222580,
   3835390401, 4022224774, 264347078, 604807628,
   770255983, 1249150122, 1555081692, 1996064986,
   2554220882, 2821834349, 2952996808, 3210313671,
   3336571891, 3584528711, 113926993, 338241895,
   666307205, 773529912, 1294757372, 1396182291,
   1695183700, 1986661051, 2177026350, 2456956037,
   2730485921, 2820302411, 3259730800, 3345764771,
   3516065817, 3600352804, 4094571909, 275423344,
   430227734, 506948616, 659060556, 883997877,
   958139571, 1322822218, 1537002063, 1747873779,
   1955562222, 2024104815, 2227730452, 2361852424,
   2428436474, 2756734187, 3204031479, 3329325298]

/-- 32-bit right rotation (the value is kept below `2^32`). -/
def rotr32 (x k : Nat) : Nat := x / 2 ^ k + x % 2 ^ k * 2 ^ (32 - k)

/-- 32-bit complement. -/
def not32 (x : Nat) : Nat := x ^^^ 4294967295

def bsig0 (x : Nat) : Nat := rotr32 x 2 ^^^ rotr32 x 13 ^^^ rotr32 x 22

def bsig1 (x : Nat) : Nat := rotr32 x 6 ^^^ rotr32 x 11 ^^^ rotr32 x 25

def ssig0 (x : Nat) : Nat := rotr32 x 7 ^^^ rotr32 x 18 ^^^ x / 2 ^ 3

def ssig1 (x : Nat) : Nat := rotr32 x 17 ^^^ rotr32 x 19 ^^^ x / 2 ^ 10

def shaCh (x y z : Nat) : Nat := x &&& y ^^^ not32 x &&& z

def shaMaj (x y z : Nat) : Nat := x &&& y ^^^ x &&& z ^^^ y &&& z

/-- Big-endian 64-bit length field of SHA-256 padding. -/
def be64 (n : Nat) : List Nat :=
  [n / 2 ^ 56 % 256, n / 2 ^ 48 % 256, n / 2 ^ 40 % 256, n / 2 ^ 32 % 256,
   n / 2 ^ 24 % 256, n / 2 ^ 16 % 256, n / 2 ^ 8 % 256, n % 256]

/-- SHA-256 message padding: `0x80`, zeros to 56 mod 64, bit length. -/
def shaPad (msg : List Nat) : List Nat :=
  msg ++ 128 :: List.replicate ((120 - (msg.length + 1) % 64) % 64) 0 ++ be64 (8 * msg.length)

/-- Split into 64-byte blocks (fuel is instantiated with the length, which
suffices since every step consumes at least one byte). -/
def chunk64 : Nat → List Nat → List (List Nat)
  | 0, _ => []
  | _, [] => []
  | f + 1, l => l.take 64 :: chunk64 f (l.drop 64)

/-- The sixteen 32-bit big-endian words of one block. -/
def wordsOf16 (block : List Nat) : List Nat :=
  (List.range 16).map fun i =>
    block.getD (4 * i) 0 * 16777216 + block.getD (4 * i + 1) 0 * 65536 +
      block.getD (4 * i + 2) 0 * 256 + block.getD (4 * i + 3) 0

/-- Extend the 16-word schedule by the given number of words. -/
def extendW : Nat → List Nat → List Nat
  | 0, ws => ws
  | n + 1, ws =>
    extendW n (ws ++ [(ssig1 (ws.getD (ws.length - 2) 0) + ws.getD (ws.length - 7) 0 +
      ssig0 (ws.getD (ws.length - 15) 0) + ws.getD (ws.length - 16) 0) % 4294967296])

/-- The eight 32-bit working variables of SHA-256. -/
structure Sha8 where
  a : Nat
  b : Nat
  c : Nat
  d : Nat
  e : Nat
  f : Nat
  g : Nat
  h : Nat

/-- One SHA-256 compression round for a (round constant, schedule word)
pair. -/
def shaStep (st : Sha8) (kw : Nat × Nat) : Sha8 :=
  let t1 := (st.h + bsig1 st.e + shaCh st.e st.f st.g + kw.1 + kw.2) % 4294967296
  let t2 := (bsig0 st.a + shaMaj st.a st.b st.c) % 4294967296
  { a := (t1 + t2) % 4294967296, b := st.a, c := st.b, d := st.c,
    e := (st.d + t1) % 4294967296, f := st.e, g := st.f, h := st.g }

/-- Process one 64-byte block. -/
def shaBlock (st : Sha8) (block : List Nat) : Sha8 :=
  let r := (shaK.zip (extendW 48 (wordsOf16 block))).foldl shaStep st
  { a := (st.a + r.a) % 4294967296, b := (st.b + r.b) % 4294967296,
    c := (st.c + r.c) % 4294967296, d := (st.d + r.d) % 4294967296,
    e := (st.e + r.e) % 4294967296, f := (st.f + r.f) % 4294967296,
    g := (st.g + r.g) % 4294967296, h := (st.h + r.h) % 4294967296 }

/-- The four big-endian bytes of a 32-bit word. -/
def wordBytes (w : Nat) : List Nat := [w / 16777216 % 256, w / 65536 % 256, w / 256 % 256, w % 256]

/-- SHA-256 (FIPS 180-4) of a byte string, as the 32-byte digest
`hashlib.sha256(...).digest()`. -/
def sha256 (msg : List Nat) : List Nat :=
  let p := shaPad msg
  let st := (chunk64 p.length p).foldl shaBlock
    ⟨1779033703, 3144134277, 1013904242, 2773480762,
     1359893119, 2600822924, 528734635, 1541459225⟩
  wordBytes st.a ++ wordBytes st.b ++ wordBytes st.c ++ wordBytes st.d ++
    wordBytes st.e ++ wordBytes st.f ++ wordBytes st.g ++ wordBytes st.h

/-- The analysis package as the Python dict `perform_market_analysis`
builds (insertion order of server_agent.py lines 157-169). -/
def toPyVal (p : WorkPackage) : PyVal :=
  .dict [(codes "symbol", .str p.symbol),
         (codes "timeframe", .str p.timeframe),
         (codes "timestamp", .int p.timestamp),
         (codes "agent_id", .int p.agent_id),
         (codes "agent_domain", .str p.agent_domain),
         (codes "analysis", .str p.analysis),
         (codes "metadata", .dict p.metadata)]

/-- `json.dumps(analysis_package, sort_keys=True).encode()` (line 186): the
canonical bytes the content hash is computed over.  The escaped JSON text
is ASCII, so its UTF-8 bytes are its code points. -/
def canonicalBytes (p : WorkPackage) : List Nat := dumpsRaw (sortPV (toPyVal p))

/-- `hashlib.sha256(analysis_json.encode()).digest()` (line 187). -/
def dataHashP (p : WorkPackage) : List Nat := sha256 (canonicalBytes p)

/-- The store path `data/{data_hash.hex()}.json` (lines 243, 263). -/
def storeKeyP (p : WorkPackage) : List Nat :=
  codes "data/" ++ toHexL (dataHashP p) ++ codes ".json"

/-- `json.dump(analysis_package, f, indent=2)` (line 244): the bytes
actually written to the store. -/
def storedBytesP (p : WorkPackage) : List Nat := dumpsInd 0 (toPyVal p)

/-- The byte-level content-addressed store (the `data/` file system): path
to file bytes. -/
abbrev Store := List Nat → Option (List Nat)

/-- The store with no entries. -/
def emptyStore : Store := fun _ => none

/-- Writing a file: last write wins. -/
def putStore (st : Store) (k v : List Nat) : Store :=
  fun q => if q = k then some v else st q

/-- Reading a file: `none` models `FileNotFoundError`. -/
def getStore (st : Store) (k : List Nat) : Option (List Nat) := st k

/-- Modelled from the spec: the external registry's `requestValidation`
(`self.request_validation` of `ERC8004BaseAgent`, a module not part of the
two agent sources): per spec §6 it returns a transaction receipt or fails
with a `RegistryError`.  Its outcome is passed to
`submit_work_for_validation` as a value of this type. -/
abbrev RegistryOutcome := Except (List Nat) (List Nat)

/-- The observable actions of one submission, in program order. -/
inductive SubmitEvent where
  | storePut (key value : List Nat)
  | registryRequest (validatorAgentId : Int) (dataHash : List Nat)

/-- `ServerAgent.submit_work_for_validation` (server_agent.py,
lines 174-200): hash the canonical encoding, store the package under
`data/{hex}.json`, then issue the registry's `requestValidation` with
`(validator_agent_id, data_hash)`.  Returns the store after the call, the
registry outcome (a registry failure propagates to the caller, after the
store write), and the event trace in program order. -/
def submit_work_for_validation (st : Store) (p : WorkPackage) (validatorAgentId : Int)
    (registry : RegistryOutcome) : Store × RegistryOutcome × List SubmitEvent :=
  (putStore st (storeKeyP p) (storedBytesP p), registry,
   [.storePut (storeKeyP p) (storedBytesP p), .registryRequest validatorAgentId (dataHashP p)])

lemma clampScore_le (n : Nat) : clampScore n ≤ 100 := Nat.min_le_left _ _

lemma sentimentLadder_le (low : List Nat) : sentimentLadder low ≤ 100 := by
  unfold sentimentLadder
  repeat' split
  all_goals omega

lemma extractCore_le (low : List Nat) : extractCore low ≤ 100 := by
  unfold extractCore
  repeat' split
  all_goals first
    | exact clampScore_le _
    | exact sentimentLadder_le _

lemma extractScore_le (t : List Nat) : extractScore t ≤ 100 := extractCore_le _

lemma sentimentLadder_default (low : List Nat) (h : NoSentimentKeyword low) :
    sentimentLadder low = 70 := by
  obtain ⟨h1, h2, h3, h4, h5, h6, h7, h8⟩ := h
  simp [sentimentLadder, h1, h2, h3, h4, h5, h6, h7, h8]

lemma lowerNat_idem (n : Nat) : lowerNat (lowerNat n) = lowerNat n := by
  unfold lowerNat
  by_cases h : 65 ≤ n ∧ n ≤ 90
  · rw [if_pos h, if_neg (by omega : ¬(65 ≤ n + 32 ∧ n + 32 ≤ 90))]
  · rw [if_neg h, if_neg h]

lemma pyLower_idem (t : List Nat) : pyLower (pyLower t) = pyLower t := by
  induction t with
  | nil => rfl
  | cons a as ih => simp [pyLower, lowerNat_idem, ih.symm]

lemma isPrefixL_self_append (p ys : List Nat) : isPrefixL p (p ++ ys) = true := by
  induction p with
  | nil => rfl
  | cons a as ih => simp [isPrefixL, ih]

lemma contains_self_append (p ys : List Nat) : containsL p (p ++ ys) = true := by
  cases p with
  | nil =>
    cases ys with
    | nil => rfl
    | cons c cs => simp [containsL, isPrefixL]
  | cons a as =>
    have h := isPrefixL_self_append (a :: as) ys
    simp only [List.cons_append] at h ⊢
    simp [containsL, h]

lemma contains_append_right (p x t : List Nat) (h : containsL p t = true) :
    containsL p (x ++ t) = true := by
  induction x with
  | nil => simpa using h
  | cons a as ih => simp [containsL, ih]

lemma natRepr_mem (n : Nat) : ∀ d ∈ natRepr n, 48 ≤ d ∧ d ≤ 57 := by
  induction n using Nat.strong_induction_on with
  | _ n ih =>
    intro d hd
    rw [natRepr] at hd
    split at hd
    · simp at hd
      omega
    · rw [List.mem_append] at hd
      rcases hd with hd | hd
      · exact ih (n / 10) (Nat.div_lt_self (by omega) (by omega)) d hd
      · simp at hd
        omega

lemma pyLower_digits (l : List Nat) (h : ∀ d ∈ l, 48 ≤ d ∧ d ≤ 57) : pyLower l = l := by
  induction l with
  | nil => rfl
  | cons a as ih =>
    have ha := h a (List.mem_cons_self a as)
    have h1 : lowerNat a = a := by
      unfold lowerNat
      rw [if_neg]
      omega
    simp only [pyLower, List.map_cons, List.cons.injEq]
    exact ⟨h1, ih fun d hd => h d (List.mem_cons_of_mem _ hd)⟩

lemma pyLower_append (x y : List Nat) : pyLower (x ++ y) = pyLower x ++ pyLower y :=
  List.map_append _ _ _

lemma pyLower_intRepr_nonneg (n : Int) (h : 0 ≤ n) : pyLower (intRepr n) = intRepr n := by
  rw [intRepr, if_neg (by omega)]
  exact pyLower_digits _ (natRepr_mem _)

lemma fvCompleteness_nonneg (d : PDict) : 0 ≤ fvCompleteness d := by
  unfold fvCompleteness
  split
  · omega
  · exact le_max_left 0 _

lemma fvOverall_nonneg (d : PDict) : 0 ≤ fvOverall d := by
  have h1 := fvCompleteness_nonneg d
  have h2 : (0 : Int) ≤ fvMethodology d := by
    unfold fvMethodology
    positivity
  unfold fvOverall
  omega

lemma lexLe_total (a b : List Nat) : lexLe a b = true ∨ lexLe b a = true := by
  induction a generalizing b with
  | nil => left; rfl
  | cons x xs ih =>
    cases b with
    | nil => right; rfl
    | cons y ys =>
      rcases Nat.lt_trichotomy x y with h | h | h
      · left; simp [lexLe, h]
      · subst h
        rcases ih ys with h2 | h2
        · left; simp [lexLe, h2]
        · right; simp [lexLe, h2]
      · right; simp [lexLe, h]

lemma lexLe_antisymm (a b : List Nat) (h1 : lexLe a b = true) (h2 : lexLe b a = true) :
    a = b := by
  induction a generalizing b with
  | nil =>
    cases b with
    | nil => rfl
    | cons y ys => simp [lexLe] at h2
  | cons x xs ih =>
    cases b with
    | nil => simp [lexLe] at h1
    | cons y ys =>
      rcases Nat.lt_trichotomy x y with h | h | h
      · rw [lexLe] at h2
        simp [Nat.lt_asymm h, h] at h2
      · subst h
        rw [lexLe] at h1 h2
        simp [Nat.lt_irrefl] at h1 h2
        rw [ih ys h1 h2]
      · rw [lexLe] at h1
        simp [Nat.lt_asymm h, h] at h1

lemma lexLe_trans (a b c : List Nat) (h1 : lexLe a b = true) (h2 : lexLe b c = true) :
    lexLe a c = true := by
  induction a generalizing b c with
  | nil => rfl
  | cons x xs ih =>
    cases b with
    | nil => simp [lexLe] at h1
    | cons y ys =>
      cases c with
      | nil => simp [lexLe] at h2
      | cons z zs =>
        rcases Nat.lt_trichotomy x y with hxy | hxy | hxy
        · rcases Nat.lt_trichotomy y z with hyz | hyz | hyz
          · simp [lexLe, Nat.lt_trans hxy hyz]
          · subst hyz; simp [lexLe, hxy]
          · rw [lexLe] at h2
            simp [Nat.lt_asymm hyz, hyz] at h2
        · subst hxy
          rcases Nat.lt_trichotomy x z with hxz | hxz | hxz
          · simp [lexLe, hxz]
          · subst hxz
            rw [lexLe] at h1 h2 ⊢
            simp [Nat.lt_irrefl] at h1 h2 ⊢
            exact ih ys zs h1 h2
          · rw [lexLe] at h2
            simp [Nat.lt_asymm hxz, hxz] at h2
        · rw [lexLe] at h1
          simp [Nat.lt_asymm hxy, hxy] at h1

lemma insertKV_perm (p : List Nat × PyVal) (l : List (List Nat × PyVal)) :
    (insertKV p l).Perm (p :: l) := by
  induction l with
  | nil => exact List.Perm.refl _
  | cons q qs ih =>
    by_cases h : lexLe p.1 q.1 = true
    · rw [insertKV, if_pos h]
    · rw [insertKV, if_neg h]
      exact (ih.cons q).trans (List.Perm.swap p q qs)

lemma sortPairs_perm (l : List (List Nat × PyVal)) : (sortPairs l).Perm l := by
  induction l with
  | nil => exact List.Perm.refl _
  | cons p ps ih => exact (insertKV_perm p (sortPairs ps)).trans (ih.cons p)

lemma insertKV_pairwise (p : List Nat × PyVal) (l : List (List Nat × PyVal))
    (hl : l.Pairwise fun x y => lexLe x.1 y.1 = true) :
    (insertKV p l).Pairwise fun x y => lexLe x.1 y.1 = true := by
  induction l with
  | nil => simp [insertKV]
  | cons q qs ih =>
    rcases List.pairwise_cons.mp hl with ⟨hq, hqs⟩
    by_cases h : lexLe p.1 q.1 = true
    · rw [insertKV, if_pos h]
      refine List.pairwise_cons.mpr ⟨?_, hl⟩
      intro x hx
      rcases List.mem_cons.mp hx with rfl | hx
      · exact h
      · exact lexLe_trans _ _ _ h (hq x hx)
    · rw [insertKV, if_neg h]
      refine List.pairwise_cons.mpr ⟨?_, ih hqs⟩
      intro x hx
      rcases List.mem_cons.mp ((insertKV_perm p qs).mem_iff.mp hx) with rfl | hx'
      · rcases lexLe_total x.1 q.1 with ht | ht
        · exact absurd ht h
        · exact ht
      · exact hq x hx'

lemma sortPairs_pairwise (l : List (List Nat × PyVal)) :
    (sortPairs l).Pairwise fun x y => lexLe x.1 y.1 = true := by
  induction l with
  | nil => simp [sortPairs]
  | cons p ps ih => exact insertKV_pairwise p _ ih

lemma sortKVs_eq_map (l : List (List Nat × PyVal)) :
    sortKVs l = l.map fun kv => (kv.1, sortPV kv.2) := by
  induction l with
  | nil => rfl
  | cons kv rest ih =>
    cases kv
    simp [sortKVs, ih]

lemma sortKVs_map_fst (l : List (List Nat × PyVal)) :
    (sortKVs l).map Prod.fst = l.map Prod.fst := by
  rw [sortKVs_eq_map, List.map_map]
  rfl

lemma eq_of_perm_sorted_nodup (l₁ : List (List Nat × PyVal)) :
    ∀ l₂, l₁.Perm l₂ → (l₁.Pairwise fun x y => lexLe x.1 y.1 = true) →
      (l₂.Pairwise fun x y => lexLe x.1 y.1 = true) →
      (l₁.map Prod.fst).Nodup → l₁ = l₂ := by
  induction l₁ with
  | nil =>
    intro l₂ hp _ _ _
    exact (hp.symm.eq_nil).symm
  | cons a t₁ ih =>
    intro l₂ hp hs₁ hs₂ hnd
    cases l₂ with
    | nil => exact absurd hp.eq_nil (List.cons_ne_nil a t₁)
    | cons b t₂ =>
      simp only [List.map_cons] at hnd
      rcases List.nodup_cons.mp hnd with ⟨hna, hndt⟩
      have hab : a = b := by
        rcases List.mem_cons.mp (hp.mem_iff.mp (List.mem_cons_self a t₁)) with h1 | h1
        · exact h1
        rcases List.mem_cons.mp (hp.mem_iff.mpr (List.mem_cons_self b t₂)) with h2 | h2
        · exact h2.symm
        have k1 : lexLe a.1 b.1 = true := (List.pairwise_cons.mp hs₁).1 b h2
        have k2 : lexLe b.1 a.1 = true := (List.pairwise_cons.mp hs₂).1 a h1
        have hk : a.1 = b.1 := lexLe_antisymm _ _ k1 k2
        exact absurd (hk ▸ List.mem_map_of_mem Prod.fst h2) hna
      subst hab
      rw [ih t₂ hp.cons_inv (List.pairwise_cons.mp hs₁).2 (List.pairwise_cons.mp hs₂).2 hndt]

lemma sortPairs_congr_perm (l₁ l₂ : List (List Nat × PyVal)) (hperm : l₁.Perm l₂)
    (hnd : (l₁.map Prod.fst).Nodup) :
    sortPairs (sortKVs l₁) = sortPairs (sortKVs l₂) := by
  have hKp : (sortKVs l₁).Perm (sortKVs l₂) := by
    rw [sortKVs_eq_map, sortKVs_eq_map]
    exact hperm.map _
  have hp : (sortPairs (sortKVs l₁)).Perm (sortPairs (sortKVs l₂)) :=
    ((sortPairs_perm _).trans hKp).trans (sortPairs_perm _).symm
  have hnd1 : ((sortPairs (sortKVs l₁)).map Prod.fst).Nodup := by
    have hpm : ((sortPairs (sortKVs l₁)).map Prod.fst).Perm (l₁.map Prod.fst) := by
      have h := (sortPairs_perm (sortKVs l₁)).map (Prod.fst (α := List Nat) (β := PyVal))
      rwa [sortKVs_map_fst] at h
    exact hpm.nodup_iff.mpr hnd
  exact eq_of_perm_sorted_nodup _ _ hp (sortPairs_pairwise _) (sortPairs_pairwise _) hnd1

lemma sha256_length (msg : List Nat) : (sha256 msg).length = 32 := by
  simp [sha256, wordBytes]

lemma wordBytes_lt (w : Nat) : ∀ b ∈ wordBytes w, b < 256 := by
  intro b hb
  simp [wordBytes] at hb
  rcases hb with rfl | rfl | rfl | rfl <;> omega

lemma sha256_lt_256 (msg : List Nat) : ∀ b ∈ sha256 msg, b < 256 := by
  intro b hb
  simp only [sha256, List.mem_append, or_assoc] at hb
  rcases hb with hb | hb | hb | hb | hb | hb | hb | hb <;> exact wordBytes_lt _ b hb

lemma toHexL_length (l : List Nat) : (toHexL l).length = 2 * l.length := by
  induction l with
  | nil => rfl
  | cons b bs ih =>
    simp [toHexL, ih]
    omega

lemma hexDig_range (n : Nat) (h : n < 16) :
    48 ≤ hexDig n ∧ hexDig n ≤ 57 ∨ 97 ≤ hexDig n ∧ hexDig n ≤ 102 := by
  unfold hexDig
  split <;> omega

lemma toHexL_lower_hex (l : List Nat) (h : ∀ b ∈ l, b < 256) :
    ∀ c ∈ toHexL l, 48 ≤ c ∧ c ≤ 57 ∨ 97 ≤ c ∧ c ≤ 102 := by
  induction l with
  | nil => intro c hc; simp [toHexL] at hc
  | cons b bs ih =>
    intro c hc
    have hb := h b (List.mem_cons_self b bs)
    rcases List.mem_cons.mp hc with rfl | hc
    · exact hexDig_range _ (by omega)
    rcases List.mem_cons.mp hc with rfl | hc
    · exact hexDig_range _ (by omega)
    · exact ih (fun x hx => h x (List.mem_cons_of_mem _ hx)) c hc

/-- **C2** — The content hash is a deterministic function of package
content only: it is the SHA-256 digest (32 bytes) of the canonical JSON
encoding with lexicographically sorted keys, so two packages whose mapping
field holds identical key/value sets — regardless of insertion order —
hash identically. -/
theorem claim_C2_canonical_hash_deterministic (p : WorkPackage) (m₂ : PDict)
    (hperm : p.metadata.Perm m₂) (hnd : (p.metadata.map Prod.fst).Nodup) :
    dataHashP { p with metadata := m₂ } = dataHashP p ∧
    (dataHashP p).length = 32 ∧
    dataHashP p = sha256 (dumpsRaw (sortPV (toPyVal p))) := by
  have hnd₂ : (m₂.map Prod.fst).Nodup := ((hperm.map Prod.fst).nodup_iff).mp hnd
  have hm : sortPairs (sortKVs m₂) = sortPairs (sortKVs p.metadata) :=
    sortPairs_congr_perm _ _ hperm.symm hnd₂
  have henc : sortPV (toPyVal { p with metadata := m₂ }) = sortPV (toPyVal p) := by
    simp [toPyVal, sortPV, sortKVs, hm]
  refine ⟨?_, ?_, rfl⟩
  · rw [dataHashP, dataHashP, canonicalBytes, canonicalBytes, henc]
  · rw [dataHashP]
    exact sha256_length _

/-- Witness for C2: a concrete package whose metadata dict is built in the
reverse insertion order hashes identically. -/
theorem claim_C2_canonical_hash_deterministic_witness :
    ([(codes "crew_agents", PyVal.int 2),
      (codes "analysis_method", PyVal.str (codes "CrewAI Multi-Agent Analysis"))] :
        PDict).Perm
      [(codes "analysis_method", PyVal.str (codes "CrewAI Multi-Agent Analysis")),
       (codes "crew_agents", PyVal.int 2)] ∧
    (([(codes "crew_agents", PyVal.int 2),
       (codes "analysis_method", PyVal.str (codes "CrewAI Multi-Agent Analysis"))] :
        PDict).map Prod.fst).Nodup ∧
    dataHashP {
        symbol := codes "BTC", timeframe := codes "1d", timestamp := 1000,
        agent_id := 7, agent_domain := codes "server.example",
        analysis := codes "bullish trend",
        metadata := [(codes "analysis_method",
            PyVal.str (codes "CrewAI Multi-Agent Analysis")),
          (codes "crew_agents", PyVal.int 2)] } =
      dataHashP {
        symbol := codes "BTC", timeframe := codes "1d", timestamp := 1000,
        agent_id := 7, agent_domain := codes "server.example",
        analysis := codes "bullish trend",
        metadata := [(codes "crew_agents", PyVal.int 2),
          (codes "analysis_method", PyVal.str (codes "CrewAI Multi-Agent Analysis"))] } :=
  ⟨List.Perm.swap _ _ _, by decide,
    (claim_C2_canonical_hash_deterministic
      { symbol := codes "BTC", timeframe := codes "1d", timestamp := 1000,
        agent_id := 7, agent_domain := codes "server.example",
        analysis := codes "bullish trend",
        metadata := [(codes "crew_agents", PyVal.int 2),
          (codes "analysis_method", PyVal.str (codes "CrewAI Multi-Agent Analysis"))] }
      [(codes "analysis_method", PyVal.str (codes "CrewAI Multi-Agent Analysis")),
       (codes "crew_agents", PyVal.int 2)]
      (List.Perm.swap _ _ _) (by decide)).1⟩

/-- **C3 (amended)** — A store get after a put of a hash returns exactly
the bytes put, and a get of a key never put reports absence (NotFound);
after a submission the package-namespace entry is keyed by the lowercase
hex of the 32-byte content hash (the path `data/{hex}.json`); its value is
the indent-2 JSON encoding of the package in construction order — which is
**not** byte-identical to the canonical sorted encoding the hash is
computed over (see the counterexample). -/
theorem claim_C3_store_roundtrip_amended (st : Store) (k v k' : List Nat) (hne : k' ≠ k)
    (p : WorkPackage) (vid : Int) (reg : RegistryOutcome) :
    getStore (putStore st k v) k = some v ∧
    getStore emptyStore k = none ∧
    getStore (putStore st k v) k' = getStore st k' ∧
    getStore (submit_work_for_validation st p vid reg).1 (storeKeyP p) =
      some (storedBytesP p) ∧
    storeKeyP p = codes "data/" ++ toHexL (dataHashP p) ++ codes ".json" ∧
    (dataHashP p).length = 32 ∧
    (toHexL (dataHashP p)).length = 64 ∧
    (∀ c ∈ toHexL (dataHashP p), 48 ≤ c ∧ c ≤ 57 ∨ 97 ≤ c ∧ c ≤ 102) ∧
    storedBytesP p = dumpsInd 0 (toPyVal p) := by
  refine ⟨?_, rfl, ?_, ?_, rfl, ?_, ?_, ?_, rfl⟩
  · simp [getStore, putStore]
  · simp [getStore, putStore, hne]
  · simp [submit_work_for_validation, getStore, putStore]
  · rw [dataHashP]
    exact sha256_length _
  · rw [toHexL_length, dataHashP, sha256_length]
  · intro c hc
    refine toHexL_lower_hex _ ?_ c hc
    intro b hb
    rw [dataHashP] at hb
    exact sha256_lt_256 _ b hb

/-- Witness for C3: two distinct concrete keys; the put of one does not
create the other. -/
theorem claim_C3_store_roundtrip_amended_witness :
    codes "data/bb.json" ≠ codes "data/aa.json" ∧
    getStore (putStore emptyStore (codes "data/aa.json") (codes "x"))
      (codes "data/bb.json") = getStore emptyStore (codes "data/bb.json") :=
  ⟨by decide,
    (claim_C3_store_roundtrip_amended emptyStore (codes "data/aa.json") (codes "x")
      (codes "data/bb.json") (by decide)
      { symbol := codes "BTC", timeframe := codes "1d", timestamp := 0, agent_id := 1,
        agent_domain := codes "s", analysis := codes "a", metadata := [] }
      2 (.error (codes "RegistryError"))).2.2.1⟩

/-- **C3 (counterexample)** — The original claim says the stored value is
"the canonical-encoded package bytes (the same bytes over which the hash
was computed)"; it is not: the code hashes the compact sorted-keys
encoding but stores the indent-2 insertion-order encoding, and at a
concrete package the two byte strings differ. -/
theorem claim_C3_store_roundtrip_counterexample :
    storedBytesP {
        symbol := codes "BTC", timeframe := codes "1d", timestamp := 1000,
        agent_id := 7, agent_domain := codes "server.example", analysis := codes "ok",
        metadata := [(codes "crew_agents", PyVal.int 2)] } ≠
      canonicalBytes {
        symbol := codes "BTC", timeframe := codes "1d", timestamp := 1000,
        agent_id := 7, agent_domain := codes "server.example", analysis := codes "ok",
        metadata := [(codes "crew_agents", PyVal.int 2)] } := by
  decide

/-- **C8** — In every execution of the producer's submission step the
package is persisted to the store strictly before the registry's
`requestValidation` is issued (the event trace is exactly
`[storePut, registryRequest]`); whatever the registry outcome — including
failure — the stored entry remains (no rollback) and the outcome is
surfaced unchanged; resubmitting the same package writes the same store
entry, leaving the store identical. -/
theorem claim_C8_store_before_registry (st : Store) (p : WorkPackage) (vid : Int)
    (reg reg2 : RegistryOutcome) :
    (submit_work_for_validation st p vid reg).2.2 =
      [SubmitEvent.storePut (storeKeyP p) (storedBytesP p),
       SubmitEvent.registryRequest vid (dataHashP p)] ∧
    getStore (submit_work_for_validation st p vid reg).1 (storeKeyP p) =
      some (storedBytesP p) ∧
    (submit_work_for_validation st p vid reg).2.1 = reg ∧
    (submit_work_for_validation (submit_work_for_validation st p vid reg).1 p vid reg2).1 =
      (submit_work_for_validation st p vid reg).1 := by
  refine ⟨rfl, ?_, rfl, ?_⟩
  · simp [submit_work_for_validation, getStore, putStore]
  · funext q
    by_cases h : q = storeKeyP p <;> simp [submit_work_for_validation, putStore, h]

/-- **C5** — `fallbackValidation` computes
`completeness = max(0, 100 − 25 × #missing required fields)` over the four
required fields `{symbol, analysis, timestamp, agent_id}` (so a package
missing only the timestamp scores 75), computes
`methodology = 100 × #found keywords / 5` over the five recognized keywords
found case-insensitively in the result payload, and emits a report
containing the token `overall` followed by the integer-truncated mean of
the two scores. -/
theorem claim_C5_fallback_validation_scores (d : PDict) :
    fvCompleteness d = max 0 (100 - 25 * ((fvMissing d).length : Int)) ∧
    fvMethodology d = 100 * ((fvFound d).length : Int) / 5 ∧
    fvOverall d = (fvCompleteness d + fvMethodology d) / 2 ∧
    containsL (codes "overall validation score: " ++ intRepr (fvOverall d))
      (pyLower (fvReport d)) = true ∧
    ((hasKey d (codes "symbol") = true ∧ hasKey d (codes "analysis") = true ∧
      hasKey d (codes "agent_id") = true ∧ hasKey d (codes "timestamp") = false) →
      fvCompleteness d = 75) := by
  refine ⟨?_, ?_, rfl, ?_, ?_⟩
  · by_cases h : (fvMissing d).isEmpty
    · rw [fvCompleteness, if_pos h, List.isEmpty_iff.mp h]
      decide
    · rw [fvCompleteness, if_neg h]
  · rw [fvMethodology]
    omega
  · rw [fvReport, pyLower_append, pyLower_append, pyLower_append,
      show pyLower (codes "Overall Validation Score: ") = codes "overall validation score: "
        from by decide,
      pyLower_intRepr_nonneg _ (fvOverall_nonneg d)]
    rw [List.append_assoc, List.append_assoc, ← List.append_assoc (codes "overall validation score: ")]
    exact contains_append_right _ _ _ (contains_self_append _ _)
  · rintro ⟨h1, h2, h3, h4⟩
    have hm : fvMissing d = [codes "timestamp"] := by
      simp [fvMissing, requiredFields, h1, h2, h3, h4]
    rw [fvCompleteness, hm]
    decide

/-- Witness for C5: a concrete package holding `symbol`, `analysis` and
`agent_id` but no `timestamp` has fallback completeness 75. -/
theorem claim_C5_fallback_validation_scores_witness :
    (hasKey [(codes "symbol", PyVal.str (codes "BTC")),
      (codes "analysis", PyVal.str (codes "trend")),
      (codes "agent_id", PyVal.int 7)] (codes "symbol") = true ∧
     hasKey [(codes "symbol", PyVal.str (codes "BTC")),
      (codes "analysis", PyVal.str (codes "trend")),
      (codes "agent_id", PyVal.int 7)] (codes "analysis") = true ∧
     hasKey [(codes "symbol", PyVal.str (codes "BTC")),
      (codes "analysis", PyVal.str (codes "trend")),
      (codes "agent_id", PyVal.int 7)] (codes "agent_id") = true ∧
     hasKey [(codes "symbol", PyVal.str (codes "BTC")),
      (codes "analysis", PyVal.str (codes "trend")),
      (codes "agent_id", PyVal.int 7)] (codes "timestamp") = false) ∧
    fvCompleteness [(codes "symbol", PyVal.str (codes "BTC")),
      (codes "analysis", PyVal.str (codes "trend")),
      (codes "agent_id", PyVal.int 7)] = 75 :=
  ⟨⟨by decide, by decide, by decide, by decide⟩,
    (claim_C5_fallback_validation_scores _).2.2.2.2 ⟨by decide, by decide, by decide, by decide⟩⟩

/-- **C9** — Both fallback generators are total on every well-formed input:
every fallible Python operation they contain succeeds, so they return a
report string without raising, and they degrade to 0 scores (an empty or
payload-less package scores completeness 0 and methodology 0) rather than
failing. -/
theorem claim_C9_fallback_liveness (symbol timeframe : List Nat)
    (pyhash : List Nat → Int) (d : PDict) :
    fallbackAnalysisE symbol timeframe pyhash =
      .ok (fallbackAnalysisReport symbol timeframe pyhash) ∧
    fallbackValidationE d = .ok (fvReport d) ∧
    fvCompleteness ([] : PDict) = 0 ∧ fvMethodology ([] : PDict) = 0 ∧
    fvMethodology [(codes "analysis", PyVal.str [])] = 0 :=
  ⟨rfl, rfl, by decide, by decide, by decide⟩

/-- **C7** — For every hash with no stored package, `validate_analysis`
returns the "package not found" error dict instead of raising, and never
produces a completed validation package for that attempt (so no score is
extracted and nothing is submitted). -/
theorem claim_C7_not_found_reported (st : VStore) (dataHash : List Nat)
    (engine : Except (List Nat) (List Nat)) (aid : Int) (dom : List Nat) (ts : Int)
    (hmiss : load_analysis_package st dataHash = none) :
    validate_analysis st dataHash engine aid dom ts =
      .notFound (codes "Analysis package not found") 0 false ∧
    ∀ vp, validate_analysis st dataHash engine aid dom ts ≠ .completed vp := by
  constructor
  · simp [validate_analysis, hmiss]
  · intro vp
    simp [validate_analysis, hmiss]

/-- Witness for C7: on an empty store every load misses and the validator
reports the not-found dict. -/
theorem claim_C7_not_found_reported_witness :
    validate_analysis (fun _ => none) (codes "deadbeef") (.ok (codes "fine")) 1
      (codes "validator.example") 0 =
      .notFound (codes "Analysis package not found") 0 false :=
  (claim_C7_not_found_reported (fun _ => none) (codes "deadbeef") (.ok (codes "fine")) 1
    (codes "validator.example") 0 rfl).1

/-- **C6 (amended)** — When the primary validation engine fails on a
successfully retrieved package (a non-empty loaded dict: the source's
`if not analysis_package:` falsiness guard sends both a missing file and a
loaded empty dict to the not-found path), the deterministic fallback is
substituted transparently: the exchange completes with a normalized score
(`≤ 100`) in a structurally identical validation package, the engine
failure is never surfaced as a failure, and the metadata does **not**
record which path was used (it is the same constant on both paths);
fallback output is identifiable only by the note inside the report text
itself.  The same holds of the producer's analysis engine.  [The original
claim's "only by a metadata tag recording which path was used" is false;
see the counterexample.] -/
theorem claim_C6_engine_fallback_amended (st : VStore) (dataHash : List Nat)
    (pkg : PDict) (err : List Nat) (aid : Int) (dom : List Nat) (ts : Int)
    (hload : load_analysis_package st dataHash = some pkg) (hpkg : pkg ≠ []) :
    validate_analysis st dataHash (.error err) aid dom ts = .completed {
      data_hash := dataHash, validator_agent_id := aid, validator_domain := dom,
      timestamp := ts, validation_score := extractScore (fvReport pkg),
      validation_report := fvReport pkg, original_analysis := pkg,
      metadata_validation_method := codes "CrewAI Multi-Agent Validation",
      metadata_validator_agents := 2, metadata_validation_tasks := 2 } ∧
    extractScore (fvReport pkg) ≤ 100 ∧
    (∀ r, vresultMetadata (validate_analysis st dataHash (.ok r) aid dom ts) =
      vresultMetadata (validate_analysis st dataHash (.error err) aid dom ts)) ∧
    containsL (codes "fallback logic") (fvReport pkg) = true ∧
    (∀ (st2 : VStore) (h2 e2 : List Nat),
      load_analysis_package st2 h2 = some [] →
      validate_analysis st2 h2 (.error e2) aid dom ts =
        .notFound (codes "Analysis package not found") 0 false) ∧
    (∀ sym tf (ph : List Nat → Int) (e2 : List Nat) (ts2 aid2 : Int) (dom2 : List Nat),
      (perform_market_analysis sym tf (.error e2) ph ts2 aid2 dom2).analysis =
        fallbackAnalysisReport sym tf ph ∧
      ∀ r2, (perform_market_analysis sym tf (.ok r2) ph ts2 aid2 dom2).metadata =
        (perform_market_analysis sym tf (.error e2) ph ts2 aid2 dom2).metadata) := by
  have hfalse : pkg.isEmpty = false := by
    cases pkg with
    | nil => exact absurd rfl hpkg
    | cons kv rest => rfl
  refine ⟨?_, extractScore_le _, fun r => ?_, ?_, fun st2 h2 e2 hload2 => ?_,
    fun _ _ _ _ _ _ _ => ⟨rfl, fun _ => rfl⟩⟩
  · simp [validate_analysis, hload, hfalse]
  · simp [validate_analysis, hload, hfalse, vresultMetadata]
  · rw [fvReport, fvReportTail]
    simp only [List.append_assoc]
    repeat apply contains_append_right
    decide
  · simp [validate_analysis, hload2]

/-- Witness for C6: on a concrete store holding a non-empty package, the
metadata of a successful-engine run equals the metadata of a failed-engine
run. -/
theorem claim_C6_engine_fallback_amended_witness :
    vresultMetadata (validate_analysis
        (fun _ => some [(codes "symbol", PyVal.str (codes "BTC"))]) (codes "ab")
        (.ok (codes "score: 90")) 1 (codes "validator.example") 0) =
    vresultMetadata (validate_analysis
        (fun _ => some [(codes "symbol", PyVal.str (codes "BTC"))]) (codes "ab")
        (.error (codes "RateLimitError")) 1 (codes "validator.example") 0) :=
  (claim_C6_engine_fallback_amended
    (fun _ => some [(codes "symbol", PyVal.str (codes "BTC"))]) (codes "ab")
    [(codes "symbol", PyVal.str (codes "BTC"))]
    (codes "RateLimitError") 1 (codes "validator.example") 0 rfl
    (List.cons_ne_nil _ _)).2.2.1 (codes "score: 90")

/-- **C6 (counterexample)** — The original claim says the rest of the
protocol can distinguish primary from fallback output "only by a metadata
tag recording which path was used"; no such tag exists: at a concrete
store, hash and engine result, the metadata of the primary-path output and
of the fallback-path output are identical (the constant
`CrewAI Multi-Agent Validation`, 2, 2). -/
theorem claim_C6_engine_fallback_counterexample :
    vresultMetadata (validate_analysis
        (fun _ => some [(codes "symbol", PyVal.str (codes "BTC"))]) (codes "cd")
        (.ok (codes "excellent work, score: 95")) 2 (codes "validator.example") 5) =
      some (codes "CrewAI Multi-Agent Validation", 2, 2) ∧
    vresultMetadata (validate_analysis
        (fun _ => some [(codes "symbol", PyVal.str (codes "BTC"))]) (codes "cd")
        (.error (codes "APIConnectionError")) 2 (codes "validator.example") 5) =
      some (codes "CrewAI Multi-Agent Validation", 2, 2) :=
  ⟨rfl, rfl⟩

/-- **C1** — For every input text (including the empty string and text
containing numbers greater than 100), the score extractor returns an
integer in `[0,100]` and never fails (it is total); when no numeric
pattern and no sentiment keyword matches — in particular for empty
text — it returns exactly 70. -/
theorem claim_C1_extract_score_bounds_and_default (t : List Nat) :
    (0 ≤ extractScore t ∧ extractScore t ≤ 100) ∧
    extractScore (codes "") = 70 ∧
    (NoNumericMatch (pyLower t) → NoSentimentKeyword (pyLower t) → extractScore t = 70) := by
  refine ⟨⟨Nat.zero_le _, extractScore_le t⟩, by decide, fun hn hs => ?_⟩
  obtain ⟨h1, h2, h3, h4⟩ := hn
  simp only [extractScore, extractCore, h1, h2, h3, h4, List.getLast?]
  exact sentimentLadder_default _ hs

/-- Witness for C1: at the concrete text `"hello"` no numeric pattern and
no sentiment keyword matches, and the extractor returns 70. -/
theorem claim_C1_extract_score_bounds_and_default_witness :
    NoNumericMatch (pyLower (codes "hello")) ∧ NoSentimentKeyword (pyLower (codes "hello")) ∧
    extractScore (codes "hello") = 70 :=
  ⟨by decide, by decide,
    (claim_C1_extract_score_bounds_and_default (codes "hello")).2.2 (by decide) (by decide)⟩

/-- **C4 (amended)** — The score extractor scans the pattern classes in the
fixed priority order `score: N`, `N/100`, `N%`, `overall: N`; the first
class with any match wins (the clamped value of the last occurrence within
that class is returned, and lower-priority classes are not consulted).  In
particular the concrete text `"score: 40 and 85%"` yields 40 (the `score:`
class beats the percent class) and `"score: 10 ... score: 90"` yields 90
(last match wins).  [The original claim's universal versions of the two
examples are false; see the counterexample.] -/
theorem claim_C4_extract_priority_amended (t : List Nat) :
    (scanScore (pyLower t) ≠ [] →
      extractScore t = clampScore ((scanScore (pyLower t)).getLastD 0)) ∧
    (scanScore (pyLower t) = [] → scanSlash100 (pyLower t) ≠ [] →
      extractScore t = clampScore ((scanSlash100 (pyLower t)).getLastD 0)) ∧
    (scanScore (pyLower t) = [] → scanSlash100 (pyLower t) = [] →
      scanPercent (pyLower t) ≠ [] →
      extractScore t = clampScore ((scanPercent (pyLower t)).getLastD 0)) ∧
    (scanScore (pyLower t) = [] → scanSlash100 (pyLower t) = [] →
      scanPercent (pyLower t) = [] → scanOverall (pyLower t) ≠ [] →
      extractScore t = clampScore ((scanOverall (pyLower t)).getLastD 0)) ∧
    extractScore (codes "score: 40 and 85%") = 40 ∧
    extractScore (codes "score: 10 ... score: 90") = 90 := by
  refine ⟨fun h1 => ?_, fun h1 h2 => ?_, fun h1 h2 h3 => ?_, fun h1 h2 h3 h4 => ?_,
    by decide, by decide⟩
  · obtain ⟨v, hv⟩ := Option.isSome_iff_exists.mp (List.getLast?_isSome.mpr h1)
    simp [extractScore, extractCore, hv, List.getLastD_eq_getLast?]
  · obtain ⟨v, hv⟩ := Option.isSome_iff_exists.mp (List.getLast?_isSome.mpr h2)
    simp [extractScore, extractCore, h1, hv, List.getLastD_eq_getLast?]
  · obtain ⟨v, hv⟩ := Option.isSome_iff_exists.mp (List.getLast?_isSome.mpr h3)
    simp [extractScore, extractCore, h1, h2, hv, List.getLastD_eq_getLast?]
  · obtain ⟨v, hv⟩ := Option.isSome_iff_exists.mp (List.getLast?_isSome.mpr h4)
    simp [extractScore, extractCore, h1, h2, h3, hv, List.getLastD_eq_getLast?]

/-- Witness for C4: at the concrete text `"score: 40 and 85%"` the `score:`
class matches and the theorem yields the clamped last capture, 40. -/
theorem claim_C4_extract_priority_amended_witness :
    scanScore (pyLower (codes "score: 40 and 85%")) ≠ [] ∧
    extractScore (codes "score: 40 and 85%") =
      clampScore ((scanScore (pyLower (codes "score: 40 and 85%"))).getLastD 0) :=
  ⟨by decide, (claim_C4_extract_priority_amended (codes "score: 40 and 85%")).1 (by decide)⟩

/-- **C4 (counterexample)** — The claim's universal clause "for any text
containing both `score: 40` and `85%` it returns 40" is false: the text
`"score: 40 score: 99 85%"` contains both, yet the extractor returns 99
(the last match of the winning `score:` class). -/
theorem claim_C4_extract_priority_counterexample :
    containsL (codes "score: 40") (codes "score: 40 score: 99 85%") = true ∧
    containsL (codes "85%") (codes "score: 40 score: 99 85%") = true ∧
    extractScore (codes "score: 40 score: 99 85%") = 99 ∧
    extractScore (codes "score: 40 score: 99 85%") ≠ 40 := by
  refine ⟨by decide, by decide, by decide, by decide⟩

/-- **C10** — The score extractor is case-insensitive: extracting from any
text yields the same result as extracting from its lowercased form; in
particular `"Score: 90"` yields 90 and `"EXCELLENT"` yields 95. -/
theorem claim_C10_extract_score_case_insensitive (t : List Nat) :
    extractScore (pyLower t) = extractScore t ∧
    extractScore (codes "Score: 90") = 90 ∧
    extractScore (codes "EXCELLENT") = 95 := by
  refine ⟨?_, by decide, by decide⟩
  unfold extractScore
  rw [pyLower_idem]

end ERC8004
